import Mathlib

/-!
Verification of the analysis-request pipeline of `app.py` (the One Pager
Streamlit application).  Pure shallow embedding: Python strings become Lean
`String`s manipulated through their character lists, Python `dict`/`list`
values returned by `json.loads` become the inductive `JValue`, exceptions
become an explicit `PyError`, and each Streamlit UI emission (`st.error`,
`st.text`, ...) becomes a `UiEvent` value collected in order.
-/

namespace OnePager

/-! ### Python string primitives

Each definition models the CPython semantics of the string operation that
`app.py` uses, working on the character list of the string. -/

/-- Characters removed by Python `str.strip()` with no arguments. -/
def pyIsSpace (c : Char) : Bool :=
  c == ' ' || c == '\t' || c == '\n' || c == '\r' || c == '\x0b' || c == '\x0c'

/-- Python `s.strip()`: remove leading and trailing whitespace. -/
def pyStrip (s : String) : String :=
  ⟨((s.data.dropWhile pyIsSpace).reverse.dropWhile pyIsSpace).reverse⟩

/-- Python `s.startswith(p)`. -/
def pyStartsWith (s p : String) : Bool := p.data.isPrefixOf s.data

/-- Python `s.endswith(p)`. -/
def pyEndsWith (s p : String) : Bool := p.data.isSuffixOf s.data

/-- Python `s[n:]` (drop the first `n` characters). -/
def pyDrop (n : Nat) (s : String) : String := ⟨s.data.drop n⟩

/-- Python `s[:n]` for `n ≥ 0` (keep at most the first `n` characters). -/
def pyTake (n : Nat) (s : String) : String := ⟨s.data.take n⟩

/-- Python `s[:-n]` for `n ≥ 0`: keep all but the last `n` characters
(`""` when `n` exceeds the length, by truncated subtraction). -/
def pyDropRight (n : Nat) (s : String) : String :=
  ⟨s.data.take (s.data.length - n)⟩

/-- Python truthiness of a string: `False` exactly for `""`. -/
def pyTruthyStr (s : String) : Bool := !s.data.isEmpty

/-- Python truthiness of an optional string (`None` is falsy). -/
def pyTruthyOptStr : Option String → Bool
  | none => false
  | some s => pyTruthyStr s

theorem data_append (a b : String) : (a ++ b).data = a.data ++ b.data := by
  cases a; cases b; rfl

theorem string_eq_of_data {a b : String} (h : a.data = b.data) : a = b := by
  cases a; cases b; exact congrArg String.mk h

/-! ### JSON values and a model of `json.loads`

`JValue` models the Python values produced by `json.loads`.  The parser
below models `json.loads` on the fragment the pipeline exercises: `null`,
booleans, integer numerals, strings with the simple escape sequences,
arrays and objects.  (Fractional/exponent numerals and `\u` escapes are
outside the model: the parser rejects them.)  Any trailing non-whitespace
makes the parse fail, as in Python. -/

inductive JValue where
  | null : JValue
  | bool : Bool → JValue
  | num : Int → JValue
  | str : String → JValue
  | arr : List JValue → JValue
  | obj : List (String × JValue) → JValue

/-- JSON insignificant whitespace accepted by the Python `json.loads`. -/
def jsonWs (c : Char) : Bool := c == ' ' || c == '\t' || c == '\n' || c == '\r'

def skipWs : List Char → List Char
  | [] => []
  | c :: cs => if jsonWs c then skipWs cs else c :: cs

/-- Parse the body of a JSON string (after the opening quote); returns the
decoded characters and the input after the closing quote. -/
def parseJStr : List Char → Option (List Char × List Char)
  | [] => none
  | '"' :: rest => some ([], rest)
  | '\\' :: c :: rest =>
    (match (match c with
            | '"' => some '"'
            | '\\' => some '\\'
            | '/' => some '/'
            | 'n' => some '\n'
            | 't' => some '\t'
            | 'r' => some '\r'
            | 'b' => some '\x08'
            | 'f' => some '\x0c'
            | _ => none : Option Char) with
     | none => none
     | some e =>
       match parseJStr rest with
       | none => none
       | some (s, r) => some (e :: s, r))
  | c :: rest =>
    if c == '\\' then none
    else
      match parseJStr rest with
      | none => none
      | some (s, r) => some (c :: s, r)

def takeDigits : List Char → List Nat × List Char
  | [] => ([], [])
  | c :: cs =>
    if c.isDigit then
      let p := takeDigits cs
      ((c.toNat - 48) :: p.1, p.2)
    else ([], c :: cs)

def natOfDigits (ds : List Nat) : Nat := ds.foldl (fun a d => 10 * a + d) 0

/-- Parse an integer JSON numeral; a following `.`, `e` or `E` (a
fractional or exponent part) is outside the model and rejected. -/
def parseNum (cs : List Char) : Option (JValue × List Char) :=
  let (neg, cs1) := match cs with
    | '-' :: rest => (true, rest)
    | _ => (false, cs)
  match takeDigits cs1 with
  | ([], _) => none
  | (ds, rest) =>
    match rest with
    | '.' :: _ => none
    | 'e' :: _ => none
    | 'E' :: _ => none
    | _ =>
      let n : Int := Int.ofNat (natOfDigits ds)
      some (.num (if neg then -n else n), rest)

mutual

def parseVal (fuel : Nat) (cs : List Char) : Option (JValue × List Char) :=
  match fuel with
  | 0 => none
  | f + 1 =>
    match skipWs cs with
    | 'n' :: 'u' :: 'l' :: 'l' :: r => some (.null, r)
    | 't' :: 'r' :: 'u' :: 'e' :: r => some (.bool true, r)
    | 'f' :: 'a' :: 'l' :: 's' :: 'e' :: r => some (.bool false, r)
    | '"' :: r =>
      (parseJStr r).map fun p => (.str ⟨p.1⟩, p.2)
    | '[' :: r =>
      (match skipWs r with
       | ']' :: r2 => some (.arr [], r2)
       | r2 => (parseElems f r2).map fun p => (.arr p.1, p.2))
    | '\x7b' :: r =>
      (match skipWs r with
       | '\x7d' :: r2 => some (.obj [], r2)
       | r2 => (parseMembers f r2).map fun p => (.obj p.1, p.2))
    | cs2 => parseNum cs2

def parseElems (fuel : Nat) (cs : List Char) : Option (List JValue × List Char) :=
  match fuel with
  | 0 => none
  | f + 1 =>
    (parseVal f cs).bind fun p =>
      match skipWs p.2 with
      | ',' :: r2 => (parseElems f r2).map fun q => (p.1 :: q.1, q.2)
      | ']' :: r2 => some ([p.1], r2)
      | _ => none

def parseMembers (fuel : Nat) (cs : List Char) : Option (List (String × JValue) × List Char) :=
  match fuel with
  | 0 => none
  | f + 1 =>
    match skipWs cs with
    | '"' :: r =>
      (parseJStr r).bind fun k =>
        match skipWs k.2 with
        | ':' :: r3 =>
          (parseVal f r3).bind fun v =>
            match skipWs v.2 with
            | ',' :: r5 => (parseMembers f r5).map fun m => ((⟨k.1⟩, v.1) :: m.1, m.2)
            | '\x7d' :: r5 => some ([(⟨k.1⟩, v.1)], r5)
            | _ => none
        | _ => none
    | _ => none

end

/-- Model of Python `json.loads`: parse one JSON value, then require only
whitespace to remain (otherwise `json.loads` raises `JSONDecodeError`,
modelled as `none`). -/
def jsonParse (s : String) : Option JValue :=
  match parseVal (2 * s.data.length + 2) s.data with
  | some (v, rest) => if (skipWs rest).isEmpty then some v else none
  | none => none

theorem jsonParse_sanity :
    jsonParse "\x7b\x7d" = some (.obj []) ∧
    jsonParse "[1]" = some (.arr [.num 1]) ∧
    jsonParse " \x7b\"a\": [1, -2], \"b\": \"x\"\x7d " =
      some (.obj [("a", .arr [.num 1, .num (-2)]), ("b", .str "x")]) ∧
    jsonParse "not json" = none ∧
    jsonParse "" = none :=
  ⟨rfl, rfl, rfl, rfl, rfl⟩


/-! ### Python runtime errors and subscript semantics -/

/-- The Python exception kinds the embedded code can raise.  `nameError`
stands for `UnboundLocalError` (a `NameError` subclass): a local variable
referenced before assignment. -/
inductive PyError where
  | keyError
  | indexError
  | typeError
  | attributeError
  | nameError
  | jsonDecodeError
deriving DecidableEq, Repr

/-- Python `v[k]` for a string key `k`: dict lookup (`KeyError` when the
key is absent), `TypeError` on lists and other non-subscriptable values
(string indices must be integers; numbers are not subscriptable). -/
def pySubKey (v : JValue) (k : String) : Except PyError JValue :=
  match v with
  | .obj kvs =>
    match kvs.lookup k with
    | some w => .ok w
    | none => .error .keyError
  | _ => .error .typeError

/-- Python `v[i]` for a non-negative integer index: list indexing
(`IndexError` out of range), one-character string on strings, `KeyError`
on dicts (JSON object keys are strings, so an integer key is absent),
`TypeError` otherwise. -/
def pySubIdx (v : JValue) (i : Nat) : Except PyError JValue :=
  match v with
  | .arr xs =>
    match xs.get? i with
    | some w => .ok w
    | none => .error .indexError
  | .obj _ => .error .keyError
  | .str s =>
    match s.data.get? i with
    | some c => .ok (.str ⟨[c]⟩)
    | none => .error .indexError
  | _ => .error .typeError

/-! ### Embedding of `app.py` -/

/-- The completion-service HTTP response as seen by `get_expert_analysis`
after `requests.post` returns.  `jsonBody` is the outcome of the
black-box library call `response.json()` (`none` when the body is not
JSON, in which case `response.json()` raises `JSONDecodeError`);
`text` is `response.text`. -/
structure HttpResponse where
  status : Nat
  jsonBody : Option JValue
  text : String

/-- One Streamlit UI emission, in the order the code performs them. -/
inductive UiEvent where
  /-- line 25: the `st.error` call reporting a PDF read problem. -/
  | pdfReadError (detail : String)
  /-- line 162: the `st.error` call reporting a response-parsing problem. -/
  | parseError
  /-- line 163: the `st.text` call showing the 500-char raw excerpt. -/
  | rawResponseShown (excerpt : String)
  /-- line 166: the `st.error` call with the full API-error message. -/
  | apiError (msg : String)
  /-- line 434: missing API key warning. -/
  | configWarning
  /-- line 458: `st.success("Analysis complete! ...")`. -/
  | analysisSuccess
  /-- line 461: `st.error("Failed to get analysis from the AI. ...")`. -/
  | aiFailed
  /-- line 463: `st.error("Failed to extract text from the PDF. ...")`. -/
  | extractFailed
  /-- lines 478-485: the result sections are rendered. -/
  | resultsDisplayed
deriving DecidableEq, Repr

/-! #### The prompt (lines 34-137) and the request payload (lines 139-147) -/

/-- The prompt string of lines 34-137 of `get_expert_analysis`, verbatim
(the Python triple-quoted literal, including its indentation). -/
def promptText : String :=
  "\n    You are an expert academic reviewer analyzing a research paper. Provide a comprehensive analysis in the following JSON structure. Be specific, critical, and insightful in your analysis.\n\n    IMPORTANT: Return ONLY valid JSON. No additional text or formatting.\n\n    \x7b\n      \"metadata\": \x7b\n        \"title\": \"The paper\x27s title\",\n        \"authors\": \"Primary authors (first 3 if many)\",\n        \"venue\": \"Journal/conference if mentioned\",\n        \"year\": \"Publication year if available\",\n        \"field\": \"Primary research field/discipline\"\n      \x7d,\n      \"summary\": \x7b\n        \"research_question\": \"The main research question in one clear sentence\",\n        \"hypothesis\": \"The central hypothesis or claim being tested (if applicable)\",\n        \"contribution\": \"The paper\x27s novel contribution in 1-2 sentences\",\n        \"key_findings\": [\n          \"Most significant finding\",\n          \"Second most important result\",\n          \"Additional important findings (2-3 more)\"\n        ]\n      \x7d,\n      \"methodology\": \x7b\n        \"approach\": \"High-level methodological approach (experimental, theoretical, computational, etc.)\",\n        \"methods\": [\n          \"Specific method 1\",\n          \"Specific method 2\",\n          \"Additional methods used\"\n        ],\n        \"data\": \x7b\n          \"type\": \"Type of data used (survey, experimental, observational, etc.)\",\n          \"size\": \"Sample size or data scale if mentioned\",\n          \"source\": \"Where the data came from\"\n        \x7d,\n        \"strengths\": [\n          \"Strong aspect of methodology\",\n          \"Another methodological strength\"\n        ]\n      \x7d,\n      \"critical_analysis\": \x7b\n        \"limitations\": \x7b\n          \"stated\": [\n            \"Limitation explicitly mentioned by authors\",\n            \"Another stated limitation\"\n          ],\n          \"unstated\": [\n            \"Potential limitation not discussed by authors\",\n            \"Another unstated concern\"\n          ]\n        \x7d,\n        \"methodological_concerns\": [\n          \"Specific concern about experimental design or analysis\",\n          \"Another methodological issue if present\"\n        ],\n        \"alternative_interpretations\": [\n          \"Different way to interpret the main findings\",\n          \"Another plausible interpretation\"\n        ],\n        \"reproducibility\": \"Assessment of how reproducible this work is (High/Medium/Low) and why\"\n      \x7d,\n      \"significance\": \x7b\n        \"novelty_score\": \"Rate novelty 1-5 (5=highly novel) with brief justification\",\n        \"theoretical_impact\": \"How this advances theoretical understanding\",\n        \"practical_impact\": \"Real-world applications or implications\",\n        \"field_impact\": \x7b\n          \"immediate\": \"Impact on field in next 1-2 years\",\n          \"long_term\": \"Potential impact in 5-10 years\"\n        \x7d\n      \x7d,\n      \"future_directions\": \x7b\n        \"direct_extensions\": [\n          \"Natural next step building directly on this work\",\n          \"Another direct follow-up study\"\n        ],\n        \"creative_applications\": [\n          \"Creative application to different domain\",\n          \"Innovative methodology extension\"\n        ],\n        \"open_questions\": [\n          \"Important question this work raises but doesn\x27t answer\",\n          \"Another unresolved question\"\n        ]\n      \x7d,\n      \"resources\": \x7b\n        \"data_availability\": \"Whether data is available (Yes/No/Partial) and where\",\n        \"code_availability\": \"Whether code is available (Yes/No/Partial) and where\",\n        \"supplementary_materials\": [\n          \"Link or description of additional resources if mentioned\"\n        ]\n      \x7d,\n      \"overall_assessment\": \x7b\n        \"strengths\": [\n          \"Major strength of the paper\",\n          \"Another key strength\"\n        ],\n        \"weaknesses\": [\n          \"Main weakness or concern\",\n          \"Another significant limitation\"\n        ],\n        \"recommendation\": \"Overall assessment: Accept/Minor Revisions/Major Revisions/Reject with 1-sentence rationale\"\n      \x7d\n    \x7d\n    "

/-- The system message content (line 142). -/
def systemContent : String :=
  "You are a world-class academic expert providing analysis in valid JSON format. Return ONLY the JSON structure requested, no additional text."

/-- The user message content (line 143):
the prompt, a fixed connective phrase, then the document text. -/
def userContent (paper_text : String) : String :=
  promptText ++ "\n\nHere is the paper\x27s text:\n\n" ++ paper_text

structure Message where
  role : String
  content : String
deriving DecidableEq, Repr

/-- The completion request body (lines 139-147).  The source temperature
is the float literal `0.3`, modelled as the rational `0.3`. -/
structure Payload where
  model : String
  messages : List Message
  response_format_type : String
  temperature : Rat
deriving DecidableEq, Repr

/-- Lines 139-147: the `payload` dictionary of `get_expert_analysis`. -/
def build_payload (paper_text : String) : Payload :=
  { model := "llama3-70b-8192"
    messages := [⟨"system", systemContent⟩, ⟨"user", userContent paper_text⟩]
    response_format_type := "json_object"
    temperature := 0.3 }

/-! #### Response handling (lines 150-167) -/

/-- Lines 155-159: whitespace stripping and fence-marker cleanup applied
to the completion content before `json.loads`. -/
def cleanContent (s : String) : String :=
  let c := pyStrip s
  let c := if pyStartsWith c "```json" then pyDrop 7 c else c
  if pyEndsWith c "```" then pyDropRight 3 c else c

/-- Line 153: the subscript chain choices / 0 / message / content on the
parsed response body.
Any error here occurs before the local variable `content` is assigned. -/
def extract_content (resp : HttpResponse) : Except PyError JValue :=
  match resp.jsonBody with
  | none => .error .jsonDecodeError
  | some j =>
    match pySubKey j "choices" with
    | .error e => .error e
    | .ok c =>
      match pySubIdx c 0 with
      | .error e => .error e
      | .ok m =>
        match pySubKey m "message" with
        | .error e => .error e
        | .ok mm => pySubKey mm "content"

/-- Outcome of lines 151-167 together with the UI events emitted.
`result = .error e` means the Python exception `e` propagates out of
`get_expert_analysis`; `.ok none` is `return None`; `.ok (some v)` is a
returned parsed value. -/
structure RespHandling where
  result : Except PyError (Option JValue)
  events : List UiEvent

/-- Lines 151-167 of `get_expert_analysis`.  The `except` clause catches
only `json.JSONDecodeError` and `KeyError`.  When the caught exception
was raised by line 153 itself, the local `content` is still unassigned,
so the `content[:500]` of the handler on line 163 raises `UnboundLocalError`
(modelled `nameError`), which propagates.  When `json.loads` on line 160
is what failed, `content` holds the cleaned string and the handler
completes, returning `None`. -/
def handle_response (resp : HttpResponse) : RespHandling :=
  if resp.status = 200 then
    match extract_content resp with
    | .error e =>
      match e with
      | .jsonDecodeError | .keyError => ⟨.error .nameError, [.parseError]⟩
      | _ => ⟨.error e, []⟩
    | .ok v =>
      match v with
      | .str s =>
        let c := cleanContent s
        match jsonParse c with
        | some j => ⟨.ok (some j), []⟩
        | none => ⟨.ok none, [.parseError, .rawResponseShown (pyTake 500 c)]⟩
      | _ => ⟨.error .attributeError, []⟩
  else
    ⟨.ok none, [.apiError ("API Error: " ++ toString resp.status ++ " - " ++ resp.text)]⟩

/-- A full run of `get_expert_analysis` (lines 28-167).  `requestSent`
records whether `requests.post` was reached, and with which payload;
`resp` is the black-box response the service would give to that post. -/
structure AnalysisRun where
  requestSent : Option Payload
  result : Except PyError (Option JValue)
  events : List UiEvent

/-- Lines 28-167: `get_expert_analysis(paper_text)`.  Line 30 returns
`None` for falsy (empty) input before any request is made. -/
def get_expert_analysis (paper_text : String) (resp : HttpResponse) : AnalysisRun :=
  if pyTruthyStr paper_text then
    let rh := handle_response resp
    ⟨some (build_payload paper_text), rh.result, rh.events⟩
  else
    ⟨none, .ok none, []⟩


/-! #### PDF extraction (lines 14-26) -/

/-- Lines 19-22: concatenate the per-page extraction results in document
order, skipping falsy pages (`None`, or an empty string), each followed by
a newline.  A page is the black-box result of `page.extract_text()`. -/
def concat_pages (pages : List (Option String)) : String :=
  pages.foldl
    (fun acc p =>
      match p with
      | some t => if pyTruthyStr t then acc ++ t ++ "\n" else acc
      | none => acc)
    ""

/-- Line 23: the concatenation hard-truncated to the 15000-character
budget (`text[:15000]`). -/
def extract_pages (pages : List (Option String)) : String :=
  pyTake 15000 (concat_pages pages)

/-- Lines 14-26: `parse_pdf(file_stream)`.  The input models the
black-box `pdfplumber` session: `.ok pages` gives each page and its
`extract_text()` result; `.error msg` is an exception raised anywhere in
the `with` block, caught by the bare `except Exception` and reported via
`st.error` (line 25), making the function return `None`. -/
def parse_pdf (outcome : Except String (List (Option String))) :
    Option String × List UiEvent :=
  match outcome with
  | .ok pages => (some (extract_pages pages), [])
  | .error msg => (none, [.pdfReadError ("Error reading the PDF file: " ++ msg)])

/-! #### Configuration (line 11) and the orchestrating `main` (lines 417-488) -/

/-- The two configuration stores of line 11:
`st.secrets.get("GROQ_API_KEY", os.environ.get("GROQ_API_KEY"))`. -/
structure Config where
  secrets_key : Option String
  env_key : Option String
deriving DecidableEq, Repr

/-- Line 11: the secrets-store value, with the environment variable as
the `get` default. -/
def groq_api_key (cfg : Config) : Option String :=
  match cfg.secrets_key with
  | some v => some v
  | none => cfg.env_key

/-- The session-scoped Streamlit state (lines 427-430):
`analysis_result` and `processing`. -/
structure SessionState where
  analysis_result : Option JValue
  processing : Bool

/-- Python truthiness of `st.session_state.analysis_result`: `None` is
falsy, and so is an empty parsed container. -/
def pyTruthyJ : JValue → Bool
  | .null => false
  | .bool b => b
  | .num n => n != 0
  | .str s => pyTruthyStr s
  | .arr xs => !xs.isEmpty
  | .obj kvs => !kvs.isEmpty

def pyTruthyOptJ : Option JValue → Bool
  | none => false
  | some v => pyTruthyJ v

/-- The external circumstances of one Streamlit script run of `main`. -/
structure RunInputs where
  /-- a file is in the uploader (`uploaded_file` truthy, line 448). -/
  uploaded : Bool
  /-- the "Analyze Paper" button was pressed this run (line 449). -/
  clicked : Bool
  /-- black-box behaviour of `pdfplumber` on the uploaded file. -/
  pdfOutcome : Except String (List (Option String))
  /-- black-box response of the completion service, were it called. -/
  resp : HttpResponse
  /-- the "Analyze New Paper" button was pressed this run (line 472). -/
  newPaperClicked : Bool

/-- Observable outcome of one script run of `main`. -/
structure RunResult where
  state : SessionState
  /-- the payload handed to `requests.post`, when the post happened. -/
  requestSent : Option Payload
  events : List UiEvent
  /-- the run was ended early by `st.stop()` (line 435) or `st.rerun()`
  (lines 459, 475). -/
  halted : Bool
  /-- an unhandled Python exception aborted the run. -/
  crashed : Option PyError

/-- Lines 449-465: the body of the "Analyze Paper" button handler.
Line 450 sets `processing := True`; on the success path `st.rerun()`
(line 459) ends the script before line 465 can reset it, otherwise
line 465 resets it to `False`. -/
def analyze_click (st0 : SessionState) (inp : RunInputs) : RunResult :=
  let st1 : SessionState := ⟨st0.analysis_result, true⟩
  let pr := parse_pdf inp.pdfOutcome
  match pr.1 with
  | some t =>
    if pyTruthyStr t then
      let ar := get_expert_analysis t inp.resp
      match ar.result with
      | .error e =>
        -- the exception from `get_expert_analysis` is uncaught in `main`
        ⟨st1, ar.requestSent, pr.2 ++ ar.events, false, some e⟩
      | .ok r =>
        if pyTruthyOptJ r then
          -- lines 457-459: store, announce, rerun
          ⟨⟨r, true⟩, ar.requestSent, pr.2 ++ ar.events ++ [.analysisSuccess], true, none⟩
        else
          -- line 461, then line 465
          ⟨⟨st0.analysis_result, false⟩, ar.requestSent,
            pr.2 ++ ar.events ++ [.aiFailed], false, none⟩
    else
      -- line 463 (`paper_text` falsy), then line 465
      ⟨⟨st0.analysis_result, false⟩, none, pr.2 ++ [.extractFailed], false, none⟩
  | none =>
    -- `parse_pdf` returned `None`: line 463, then line 465
    ⟨⟨st0.analysis_result, false⟩, none, pr.2 ++ [.extractFailed], false, none⟩

/-- Lines 417-488: one script run of `main`.  Line 433 stops the script
with a warning when the key is falsy.  The upload section runs iff
`analysis_result` is falsy (line 438) and the display section iff it is
truthy (line 468); a successful analyze ends its run in `st.rerun()`
before line 468, so the two sections are complementary within a run. -/
def main_run (cfg : Config) (st0 : SessionState) (inp : RunInputs) : RunResult :=
  if !pyTruthyOptStr (groq_api_key cfg) then
    -- lines 433-435: `st.error(...)`, `st.stop()`
    ⟨st0, none, [.configWarning], true, none⟩
  else if !pyTruthyOptJ st0.analysis_result then
    -- lines 438-465: upload section
    if inp.uploaded && !st0.processing && inp.clicked then
      analyze_click st0 inp
    else
      ⟨st0, none, [], false, none⟩
  else
    -- lines 468-485: display section
    if inp.newPaperClicked then
      -- lines 472-475: reset both state fields and rerun
      ⟨⟨none, false⟩, none, [], true, none⟩
    else
      ⟨st0, none, [.resultsDisplayed], false, none⟩

/-! #### Auxiliary notions used by the claims -/

/-- The top-level keys of the analysis profile schema requested by the
prompt (lines 40-135). -/
def profile_top_keys : List String :=
  ["metadata", "summary", "methodology", "critical_analysis",
   "significance", "future_directions", "resources", "overall_assessment"]

/-- Whether a parsed value is a mapping carrying a given key. -/
def jHasKey (v : JValue) (k : String) : Bool :=
  match v with
  | .obj kvs => kvs.any (fun p => p.1 == k)
  | _ => false

/-- Whether a parsed value is a mapping (a Python `dict`) at all. -/
def isMapping : JValue → Bool
  | .obj _ => true
  | _ => false

/-- Python `d.get(key, default)` on a parsed mapping, the lookup pattern
the rendering layer uses (e.g. lines 478-485, 259-269). -/
def display_get (kvs : List (String × JValue)) (k : String) (d : JValue) : JValue :=
  match kvs.lookup k with
  | some v => v
  | none => d

/-- A 200 response whose body carries the given completion content at
`choices[0].message.content`. -/
def mkResp200 (content : String) : HttpResponse :=
  ⟨200, some (.obj [("choices",
      .arr [.obj [("message", .obj [("content", .str content)])]])]), ""⟩


/-! ### Helper lemmas -/

theorem isPrefixOf_append_self (l r : List Char) : l.isPrefixOf (l ++ r) = true := by
  induction l with
  | nil => simp [List.isPrefixOf]
  | cons a as ih => simp [List.isPrefixOf, ih]

/-! ### Claims -/

/-- C10: when the service returns HTTP 200 and the fence-stripped content
parses as JSON, `get_expert_analysis` returns the parsed value as a
successful result without checking that it is a mapping: for the content
`"[1]"` the returned analysis result is a JSON array, not a mapping, and
it is truthy (so `main` would even store it as the session result). -/
theorem success_result_not_checked_for_mapping :
    (handle_response (mkResp200 "[1]")).result = .ok (some (.arr [.num 1])) ∧
    isMapping (.arr [.num 1]) = false ∧
    pyTruthyJ (.arr [.num 1]) = true :=
  ⟨rfl, rfl, rfl⟩

/-- C2 (evaluation at the failing inputs): an HTTP 200 response whose
body lacks the `choices[0].message.content` path makes an exception
propagate out of `get_expert_analysis`.  With body `{}` the `KeyError`
of line 153 is caught, but the `content[:500]` of the handler (line 163)
reads the still-unassigned local `content` and raises
`UnboundLocalError`; with body `{"choices": []}` the `IndexError` is not
in the `except` tuple at all and propagates directly. -/
theorem missing_choices_path_uncaught :
    (handle_response ⟨200, some (.obj []), ""⟩).result = .error .nameError ∧
    (handle_response ⟨200, some (.obj [("choices", .arr [])]), ""⟩).result
      = .error .indexError ∧
    (get_expert_analysis "text" ⟨200, some (.obj []), ""⟩).result
      = .error .nameError :=
  ⟨rfl, rfl, rfl⟩

/-- C1 counterexample: for the valid-but-incomplete completion content
`"{}"`, normalization succeeds but hands downstream consumers an empty
mapping that lacks the profile key `metadata` (and every other schema
key): no sentinel is inserted at normalization time. -/
theorem normalization_leaves_schema_keys_absent :
    (handle_response (mkResp200 "\x7b\x7d")).result = .ok (some (.obj [])) ∧
    "metadata" ∈ profile_top_keys ∧
    jHasKey (.obj []) "metadata" = false := by
  refine ⟨rfl, ?_, rfl⟩
  simp [profile_top_keys]

/-- C1 (amended): normalization never errors on content whose cleaned
form is valid JSON, but it returns the parsed value unchanged — it does
not insert any schema key.  Absent keys stay absent in the result, and
the "Not found"/"N/A" sentinels appear only later, through the rendering
layer and its default-valued `dict.get` lookups, modelled by `display_get`. -/
theorem normalization_returns_parse_unchanged :
    (∀ s v, jsonParse (cleanContent s) = some v →
      (handle_response (mkResp200 s)).result = .ok (some v)) ∧
    (∀ k d, display_get [] k d = d) := by
  constructor
  · intro s v h
    have hr : handle_response (mkResp200 s) =
        (match jsonParse (cleanContent s) with
         | some j => ⟨.ok (some j), []⟩
         | none => ⟨.ok none,
             [.parseError, .rawResponseShown (pyTake 500 (cleanContent s))]⟩) := rfl
    rw [hr, h]
  · intro k d
    rfl

theorem normalization_returns_parse_unchanged_witness :
    (handle_response (mkResp200 "\x7b\"summary\": \x7b\x7d\x7d")).result
      = .ok (some (.obj [("summary", .obj [])])) :=
  normalization_returns_parse_unchanged.1 "\x7b\"summary\": \x7b\x7d\x7d"
    (.obj [("summary", .obj [])]) rfl

/-- C6: a non-200 status makes `get_expert_analysis` report an API error
message that carries the status code and the response body text, return
`None` (no analysis result), and never try to interpret the body as a
result. -/
theorem non200_reports_service_failure (resp : HttpResponse)
    (h : resp.status ≠ 200) :
    (handle_response resp).result = .ok none ∧
    (handle_response resp).events =
      [.apiError ("API Error: " ++ toString resp.status ++ " - " ++ resp.text)] ∧
    (toString resp.status).data <:+:
      ("API Error: " ++ toString resp.status ++ " - " ++ resp.text).data ∧
    resp.text.data <:+:
      ("API Error: " ++ toString resp.status ++ " - " ++ resp.text).data := by
  unfold handle_response
  rw [if_neg h]
  refine ⟨rfl, rfl, ?_, ?_⟩
  · exact ⟨"API Error: ".data, (" - " ++ resp.text).data,
      by simp [data_append, List.append_assoc]⟩
  · exact ⟨("API Error: " ++ toString resp.status ++ " - ").data, [],
      by simp [data_append, List.append_assoc]⟩

theorem non200_reports_service_failure_witness :
    (handle_response ⟨429, none, "rate limited"⟩).result = .ok none ∧
    (handle_response ⟨429, none, "rate limited"⟩).events =
      [.apiError ("API Error: " ++ toString (429 : Nat) ++ " - " ++ "rate limited")] :=
  ⟨(non200_reports_service_failure ⟨429, none, "rate limited"⟩ (by decide)).1,
   (non200_reports_service_failure ⟨429, none, "rate limited"⟩ (by decide)).2.1⟩

/-- C7: for every non-empty document text the posted body has the model
identifier, the ordered system-then-user message pair, the
`json_object` response-format hint and temperature `0.3 ≤ 0.3`, and the
user message embeds the full document text verbatim (as a suffix, after
the fixed prompt — nothing truncates it at this stage). -/
theorem request_payload_shape (t : String) (resp : HttpResponse)
    (h : pyTruthyStr t = true) :
    (get_expert_analysis t resp).requestSent = some (build_payload t) ∧
    (build_payload t).model = "llama3-70b-8192" ∧
    (build_payload t).messages =
      [⟨"system", systemContent⟩, ⟨"user", userContent t⟩] ∧
    (build_payload t).response_format_type = "json_object" ∧
    (build_payload t).temperature ≤ 0.3 ∧
    t.data <:+ (userContent t).data := by
  refine ⟨?_, rfl, rfl, rfl, le_refl _, ?_⟩
  · unfold get_expert_analysis
    rw [h]
    rfl
  · show t.data <:+ ((promptText ++ "\n\nHere is the paper\x27s text:\n\n") ++ t).data
    rw [data_append]
    exact ⟨(promptText ++ "\n\nHere is the paper\x27s text:\n\n").data, rfl⟩

theorem request_payload_shape_witness :
    (get_expert_analysis "doc" ⟨200, none, ""⟩).requestSent = some (build_payload "doc") ∧
    (build_payload "doc").temperature ≤ 0.3 :=
  ⟨(request_payload_shape "doc" ⟨200, none, ""⟩ rfl).1,
   (request_payload_shape "doc" ⟨200, none, ""⟩ rfl).2.2.2.2.1⟩

/-- C4: on a successful `pdfplumber` session, `parse_pdf` returns the
page texts concatenated in order (falsy pages skipped, each page
followed by a newline) hard-truncated to 15000 characters; the result
never exceeds 15000 characters and equals the full concatenation
whenever that is below the budget. -/
theorem parse_pdf_truncation_bound (pages : List (Option String)) :
    parse_pdf (.ok pages) = (some (extract_pages pages), []) ∧
    extract_pages pages = pyTake 15000 (concat_pages pages) ∧
    (extract_pages pages).data.length ≤ 15000 ∧
    ((concat_pages pages).data.length < 15000 →
      extract_pages pages = concat_pages pages) := by
  refine ⟨rfl, rfl, ?_, ?_⟩
  · show ((concat_pages pages).data.take 15000).length ≤ 15000
    rw [List.length_take]
    exact Nat.min_le_left _ _
  · intro h
    apply string_eq_of_data
    show (concat_pages pages).data.take 15000 = (concat_pages pages).data
    exact List.take_of_length_le (Nat.le_of_lt h)

theorem parse_pdf_truncation_bound_witness :
    extract_pages [some "ab", none, some "", some "cd"] = "ab\ncd\n" ∧
    (extract_pages [some "ab", none, some "", some "cd"]).data.length ≤ 15000 := by
  have h := parse_pdf_truncation_bound [some "ab", none, some "", some "cd"]
  refine ⟨?_, h.2.2.1⟩
  have e := h.2.2.2 (by decide)
  rw [e]
  rfl


/-- C3 counterexample: a completion wrapped in an untagged fence. The
opening marker is not removed (only the json-tagged form is), so
the cleaned content still begins with the fence and no longer parses. -/
theorem untagged_fence_left_in_place :
    cleanContent "```\n\x7b\x7d\n```" = "```\n\x7b\x7d\n" ∧
    pyStartsWith (cleanContent "```\n\x7b\x7d\n```") "```" = true ∧
    jsonParse (cleanContent "```\n\x7b\x7d\n```") = none :=
  ⟨rfl, rfl, rfl⟩

/-- C3 (amended): before JSON parsing the normalization step strips
leading/trailing whitespace, removes the leading fenced-block opening
marker only when it carries the `json` tag (an untagged opening fence is
left in place), and removes a trailing closing fence when present. -/
theorem fence_stripping_requires_json_tag (body : String) :
    cleanContent (" ```json" ++ body ++ "``` ") = body ∧
    cleanContent ("```\n" ++ body ++ "```") = "```\n" ++ body := by
  have hsp : pyIsSpace ' ' = true := rfl
  have hbt : pyIsSpace '`' = false := rfl
  constructor
  · -- tagged fence (plus surrounding whitespace): fully stripped
    have hstrip : pyStrip (" ```json" ++ body ++ "``` ")
        = ⟨['`', '`', '`', 'j', 's', 'o', 'n'] ++ (body.data ++ ['`', '`', '`'])⟩ := by
      apply string_eq_of_data
      have hdata : (" ```json" ++ body ++ "``` ").data
          = ' ' :: '`' :: '`' :: '`' :: 'j' :: 's' :: 'o' :: 'n'
              :: (body.data ++ ['`', '`', '`', ' ']) := by
        simp [data_append]
      simp [pyStrip, hdata, List.dropWhile_cons, hsp, hbt, List.reverse_append]
    have hsw : pyStartsWith (pyStrip (" ```json" ++ body ++ "``` ")) "```json" = true := by
      rw [hstrip]
      exact isPrefixOf_append_self ['`', '`', '`', 'j', 's', 'o', 'n'] _
    have hdrop : pyDrop 7 (pyStrip (" ```json" ++ body ++ "``` "))
        = ⟨body.data ++ ['`', '`', '`']⟩ := by
      rw [hstrip]
      apply string_eq_of_data
      rfl
    have hew : pyEndsWith (⟨body.data ++ ['`', '`', '`']⟩ : String) "```" = true := by
      show List.isSuffixOf ['`', '`', '`'] (body.data ++ ['`', '`', '`']) = true
      unfold List.isSuffixOf
      have h4 : (body.data ++ ['`', '`', '`']).reverse
          = ['`', '`', '`'] ++ body.data.reverse := by
        simp [List.reverse_append]
      rw [h4]
      exact isPrefixOf_append_self ['`', '`', '`'] _
    have hdr : pyDropRight 3 (⟨body.data ++ ['`', '`', '`']⟩ : String) = body := by
      apply string_eq_of_data
      show (body.data ++ ['`', '`', '`']).take ((body.data ++ ['`', '`', '`']).length - 3)
          = body.data
      have hlen : (body.data ++ ['`', '`', '`']).length - 3 = body.data.length := by
        simp [List.length_append]
      rw [hlen]
      exact List.take_left _ _
    show (if pyEndsWith
            (if pyStartsWith (pyStrip (" ```json" ++ body ++ "``` ")) "```json" then
              pyDrop 7 (pyStrip (" ```json" ++ body ++ "``` "))
            else pyStrip (" ```json" ++ body ++ "``` ")) "```" then
          pyDropRight 3
            (if pyStartsWith (pyStrip (" ```json" ++ body ++ "``` ")) "```json" then
              pyDrop 7 (pyStrip (" ```json" ++ body ++ "``` "))
            else pyStrip (" ```json" ++ body ++ "``` "))
        else
          (if pyStartsWith (pyStrip (" ```json" ++ body ++ "``` ")) "```json" then
            pyDrop 7 (pyStrip (" ```json" ++ body ++ "``` "))
          else pyStrip (" ```json" ++ body ++ "``` "))) = body
    have hinner : (if pyStartsWith (pyStrip (" ```json" ++ body ++ "``` ")) "```json" then
          pyDrop 7 (pyStrip (" ```json" ++ body ++ "``` "))
        else pyStrip (" ```json" ++ body ++ "``` "))
        = pyDrop 7 (pyStrip (" ```json" ++ body ++ "``` ")) := by
      rw [hsw]
      simp
    rw [hinner, hdrop, hew, if_pos rfl, hdr]
  · -- untagged fence: the opening marker survives
    have hstrip2 : pyStrip ("```\n" ++ body ++ "```")
        = ⟨['`', '`', '`', '\n'] ++ (body.data ++ ['`', '`', '`'])⟩ := by
      apply string_eq_of_data
      have hdata : ("```\n" ++ body ++ "```").data
          = '`' :: '`' :: '`' :: '\n' :: (body.data ++ ['`', '`', '`']) := by
        simp [data_append]
      simp [pyStrip, hdata, List.dropWhile_cons, hbt, List.reverse_append]
    have hne : ('j' == '\n') = false := rfl
    have hsw2 : pyStartsWith (pyStrip ("```\n" ++ body ++ "```")) "```json" = false := by
      rw [hstrip2]
      show List.isPrefixOf ['`', '`', '`', 'j', 's', 'o', 'n']
          ('`' :: '`' :: '`' :: '\n' :: (body.data ++ ['`', '`', '`'])) = false
      simp [List.isPrefixOf, hne]
    have hew2 : pyEndsWith (pyStrip ("```\n" ++ body ++ "```")) "```" = true := by
      rw [hstrip2]
      show List.isSuffixOf ['`', '`', '`']
          (['`', '`', '`', '\n'] ++ (body.data ++ ['`', '`', '`'])) = true
      unfold List.isSuffixOf
      have h4 : ((['`', '`', '`', '\n'] ++ (body.data ++ ['`', '`', '`'])) : List Char).reverse
          = ['`', '`', '`'] ++ (body.data.reverse ++ ['\n', '`', '`', '`']) := by
        simp [List.reverse_append]
      rw [h4]
      exact isPrefixOf_append_self ['`', '`', '`'] _
    have hdr2 : pyDropRight 3 (pyStrip ("```\n" ++ body ++ "```")) = "```\n" ++ body := by
      rw [hstrip2]
      apply string_eq_of_data
      show ((['`', '`', '`', '\n'] ++ (body.data ++ ['`', '`', '`'])).take
          ((['`', '`', '`', '\n'] ++ (body.data ++ ['`', '`', '`'])).length - 3))
          = ("```\n" ++ body).data
      have hlen : (['`', '`', '`', '\n'] ++ (body.data ++ ['`', '`', '`'])).length - 3
          = (['`', '`', '`', '\n'] ++ body.data).length := by
        simp [List.length_append]
      have hassoc : ['`', '`', '`', '\n'] ++ (body.data ++ ['`', '`', '`'])
          = (['`', '`', '`', '\n'] ++ body.data) ++ ['`', '`', '`'] := by
        rw [List.append_assoc]
      rw [hlen, hassoc, List.take_left]
      rw [data_append]
    show (if pyEndsWith
            (if pyStartsWith (pyStrip ("```\n" ++ body ++ "```")) "```json" then
              pyDrop 7 (pyStrip ("```\n" ++ body ++ "```"))
            else pyStrip ("```\n" ++ body ++ "```")) "```" then
          pyDropRight 3
            (if pyStartsWith (pyStrip ("```\n" ++ body ++ "```")) "```json" then
              pyDrop 7 (pyStrip ("```\n" ++ body ++ "```"))
            else pyStrip ("```\n" ++ body ++ "```"))
        else
          (if pyStartsWith (pyStrip ("```\n" ++ body ++ "```")) "```json" then
            pyDrop 7 (pyStrip ("```\n" ++ body ++ "```"))
          else pyStrip ("```\n" ++ body ++ "```"))) = "```\n" ++ body
    have hinner2 : (if pyStartsWith (pyStrip ("```\n" ++ body ++ "```")) "```json" then
          pyDrop 7 (pyStrip ("```\n" ++ body ++ "```"))
        else pyStrip ("```\n" ++ body ++ "```"))
        = pyStrip ("```\n" ++ body ++ "```") := by
      rw [hsw2]
      simp
    rw [hinner2, hew2, if_pos rfl, hdr2]


/-- C8: when the API key is absent from configuration (secrets store and
environment fallback both empty), `main` stops the script at line 435
with a configuration warning: the Analyze action is never reached, no
completion request can be issued, and the session state is untouched. -/
theorem missing_key_short_circuits (cfg : Config) (st0 : SessionState) (inp : RunInputs)
    (hs : cfg.secrets_key = none ∨ cfg.secrets_key = some "")
    (he : cfg.env_key = none ∨ cfg.env_key = some "") :
    main_run cfg st0 inp = ⟨st0, none, [.configWarning], true, none⟩ := by
  have hk : pyTruthyOptStr (groq_api_key cfg) = false := by
    unfold groq_api_key
    rcases hs with h | h <;> rw [h]
    · rcases he with h2 | h2 <;> rw [h2] <;> rfl
    · rfl
  unfold main_run
  rw [hk]
  rfl

theorem missing_key_short_circuits_witness :
    main_run ⟨none, none⟩ ⟨none, false⟩ ⟨true, true, .ok [some "page"], ⟨200, none, ""⟩, false⟩
      = ⟨⟨none, false⟩, none, [.configWarning], true, none⟩ :=
  missing_key_short_circuits ⟨none, none⟩ ⟨none, false⟩
    ⟨true, true, .ok [some "page"], ⟨200, none, ""⟩, false⟩ (Or.inl rfl) (Or.inl rfl)

/-- C9: a script run that starts while a prior analyze action is still in
progress (`processing = True`) never reaches `requests.post`: the
Analyze button is gated on `not st.session_state.processing` (line 448),
so the second trigger issues no completion request. -/
theorem no_duplicate_concurrent_request (cfg : Config) (st0 : SessionState)
    (inp : RunInputs) (h : st0.processing = true) :
    (main_run cfg st0 inp).requestSent = none := by
  cases hA : pyTruthyOptStr (groq_api_key cfg) <;>
    cases hB : pyTruthyOptJ st0.analysis_result <;>
      cases hN : inp.newPaperClicked <;>
        simp [main_run, h, hA, hB, hN]

theorem no_duplicate_concurrent_request_witness :
    (main_run ⟨some "key", none⟩ ⟨none, true⟩
        ⟨true, true, .ok [some "page"], ⟨200, none, ""⟩, false⟩).requestSent = none :=
  no_duplicate_concurrent_request ⟨some "key", none⟩ ⟨none, true⟩
    ⟨true, true, .ok [some "page"], ⟨200, none, ""⟩, false⟩ rfl

/-- C5: an analyze action whose extracted document text is empty reports
the extraction failure of line 463 and never issues a completion
request; independently, `get_expert_analysis` itself returns before the
post when handed falsy text (lines 30-31). -/
theorem empty_text_no_completion_request (cfg : Config) (st0 : SessionState)
    (inp : RunInputs) (pages : List (Option String)) (resp : HttpResponse)
    (hkey : pyTruthyOptStr (groq_api_key cfg) = true)
    (hres : st0.analysis_result = none)
    (hproc : st0.processing = false)
    (hup : inp.uploaded = true)
    (hclick : inp.clicked = true)
    (hpdf : inp.pdfOutcome = .ok pages)
    (hempty : concat_pages pages = "") :
    (main_run cfg st0 inp).requestSent = none ∧
    UiEvent.extractFailed ∈ (main_run cfg st0 inp).events ∧
    (get_expert_analysis "" resp).requestSent = none := by
  have hex : extract_pages pages = "" := by
    unfold extract_pages
    rw [hempty]
    rfl
  have hts : pyTruthyStr "" = false := rfl
  have hmain : main_run cfg st0 inp
      = ⟨⟨st0.analysis_result, false⟩, none, [.extractFailed], false, none⟩ := by
    unfold main_run analyze_click
    rw [hkey, hres, hup, hproc, hclick, hpdf]
    simp [parse_pdf, hex, hts]
    simp [pyTruthyOptJ]
  refine ⟨?_, ?_, rfl⟩
  · rw [hmain]
  · rw [hmain]
    exact List.mem_singleton.mpr rfl


theorem fence_stripping_requires_json_tag_witness :
    cleanContent (" ```json" ++ "\x7b\x7d" ++ "``` ") = "\x7b\x7d" :=
  (fence_stripping_requires_json_tag "\x7b\x7d").1

theorem empty_text_no_completion_request_witness :
    (main_run ⟨some "key", none⟩ ⟨none, false⟩
        ⟨true, true, .ok [none, some ""], ⟨200, none, ""⟩, false⟩).requestSent = none ∧
    UiEvent.extractFailed ∈ (main_run ⟨some "key", none⟩ ⟨none, false⟩
        ⟨true, true, .ok [none, some ""], ⟨200, none, ""⟩, false⟩).events :=
  ⟨(empty_text_no_completion_request ⟨some "key", none⟩ ⟨none, false⟩
      ⟨true, true, .ok [none, some ""], ⟨200, none, ""⟩, false⟩ [none, some ""]
      ⟨200, none, ""⟩ rfl rfl rfl rfl rfl rfl rfl).1,
   (empty_text_no_completion_request ⟨some "key", none⟩ ⟨none, false⟩
      ⟨true, true, .ok [none, some ""], ⟨200, none, ""⟩, false⟩ [none, some ""]
      ⟨200, none, ""⟩ rfl rfl rfl rfl rfl rfl rfl).2.1⟩

end OnePager
